import Mathlib

/-!
Verification of the resource/lifecycle layer of the X display backend
(`src/xterm.h`).  Definitions are shallow embeddings of the C macros,
inline functions and data structures of the header; operations whose
bodies live outside the header (in `xterm.c` / `image.c`) are modelled
from the specification and marked as such in their doc comments.
-/

set_option maxRecDepth 4000

/- ## Scroll-bar geometry (macros in xterm.h, lines 939-1009)

The C macros compute on `int`; we embed them over `Int`.  The border
and minimum-handle constants are the literal `#define`s. -/

def VERTICAL_SCROLL_BAR_LEFT_BORDER : Int := 2

def VERTICAL_SCROLL_BAR_RIGHT_BORDER : Int := 2

def VERTICAL_SCROLL_BAR_TOP_BORDER : Int := 2

def VERTICAL_SCROLL_BAR_BOTTOM_BORDER : Int := 2

def HORIZONTAL_SCROLL_BAR_LEFT_BORDER : Int := 2

def HORIZONTAL_SCROLL_BAR_RIGHT_BORDER : Int := 2

def VERTICAL_SCROLL_BAR_MIN_HANDLE : Int := 5

def HORIZONTAL_SCROLL_BAR_MIN_HANDLE : Int := 5

/-- Inside height of a vertical scroll bar, given the outside height
(macro `VERTICAL_SCROLL_BAR_INSIDE_HEIGHT`). -/
def VERTICAL_SCROLL_BAR_INSIDE_HEIGHT (height : Int) : Int :=
  height - VERTICAL_SCROLL_BAR_TOP_BORDER - VERTICAL_SCROLL_BAR_BOTTOM_BORDER

/-- Length of the rectangle within which the top of the handle must stay
(macro `VERTICAL_SCROLL_BAR_TOP_RANGE`). -/
def VERTICAL_SCROLL_BAR_TOP_RANGE (height : Int) : Int :=
  VERTICAL_SCROLL_BAR_INSIDE_HEIGHT height - VERTICAL_SCROLL_BAR_MIN_HANDLE

/-- Inside width of a horizontal scroll bar, given the outside width
(macro `HORIZONTAL_SCROLL_BAR_INSIDE_WIDTH`).  The C source subtracts
`HORIZONTAL_SCROLL_BAR_LEFT_BORDER` twice; it never mentions
`HORIZONTAL_SCROLL_BAR_RIGHT_BORDER`. -/
def HORIZONTAL_SCROLL_BAR_INSIDE_WIDTH (width : Int) : Int :=
  width - HORIZONTAL_SCROLL_BAR_LEFT_BORDER - HORIZONTAL_SCROLL_BAR_LEFT_BORDER

/-- Length of the rectangle within which the left part of the handle must
stay (macro `HORIZONTAL_SCROLL_BAR_LEFT_RANGE`). -/
def HORIZONTAL_SCROLL_BAR_LEFT_RANGE (width : Int) : Int :=
  HORIZONTAL_SCROLL_BAR_INSIDE_WIDTH width - HORIZONTAL_SCROLL_BAR_MIN_HANDLE

/- ## True-color pixel composition (inline `x_make_truecolor_pixel`)

The display records the channel bit widths and offsets
(`x_display_info.red_bits` etc., xterm.h lines 410-412).  The inline
function scales each 16-bit channel down by shifting right by
`16 - bits`, shifts left by the channel offset, and ors the results. -/

structure TruecolorLayout where
  red_bits : Nat
  green_bits : Nat
  blue_bits : Nat
  red_offset : Nat
  green_offset : Nat
  blue_offset : Nat
deriving Repr, DecidableEq

/-- Inline function `x_make_truecolor_pixel` from xterm.h: scale the
16-bit channel inputs down to the visual's bits per channel and shift
them into position, or-ing the three channel fields together. -/
def x_make_truecolor_pixel (d : TruecolorLayout) (r g b : Nat) : Nat :=
  let pr := (r >>> (16 - d.red_bits)) <<< d.red_offset
  let pg := (g >>> (16 - d.green_bits)) <<< d.green_offset
  let pb := (b >>> (16 - d.blue_bits)) <<< d.blue_offset
  pr ||| pg ||| pb

/- ## Visual classes and colormap mutability (inline `x_mutable_colormap`)

The X11 visual classes, with their protocol numbering. -/

inductive VisualClass where
  | StaticGray
  | GrayScale
  | StaticColor
  | PseudoColor
  | TrueColor
  | DirectColor
deriving Repr, DecidableEq

/-- Inline function `x_mutable_colormap` from xterm.h: a colormap is
mutable exactly when the visual class is none of StaticColor,
StaticGray, TrueColor. -/
def x_mutable_colormap (c : VisualClass) : Bool :=
  c != VisualClass.StaticColor && c != VisualClass.StaticGray
    && c != VisualClass.TrueColor

/- ## Frame output data and the drawable accessors

`struct x_output` (xterm.h): `window_desc` is the X window,
`draw_desc` the drawable currently rendered to (the window itself when
single-buffered, the back buffer when double-buffered), and
`need_buffer_flip` records a pending unpublished modification. -/

structure XOutput where
  window_desc : Nat
  draw_desc : Nat
  need_buffer_flip : Bool
deriving Repr, DecidableEq

/-- Modelled from the spec: the body of `x_mark_frame_dirty` lives in
xterm.c, which is not part of the sources; the header only declares it.
Per the spec it marks the frame as needing a buffer flip. -/
def x_mark_frame_dirty (f : XOutput) : XOutput :=
  { f with need_buffer_flip := true }

/-- Macro `FRAME_X_RAW_DRAWABLE` from xterm.h: the raw drawable handle,
with no side effect. -/
def FRAME_X_RAW_DRAWABLE (f : XOutput) : Nat :=
  f.draw_desc

/-- Macro `FRAME_X_DRAWABLE` from xterm.h:
`(x_mark_frame_dirty((f)), FRAME_X_RAW_DRAWABLE((f)))` — marks the frame
dirty as a side effect and yields the raw drawable.  Embedded as a state
transformer returning the updated frame paired with the handle. -/
def FRAME_X_DRAWABLE (f : XOutput) : XOutput × Nat :=
  let f2 := x_mark_frame_dirty f
  (f2, FRAME_X_RAW_DRAWABLE f2)

/-- Macro `FRAME_X_DOUBLE_BUFFERED_P` from xterm.h:
`FRAME_X_WINDOW (f) != FRAME_X_RAW_DRAWABLE (f)`. -/
def FRAME_X_DOUBLE_BUFFERED_P (f : XOutput) : Bool :=
  f.window_desc != FRAME_X_RAW_DRAWABLE f

/-- Modelled from the spec: the flip operation (`show_back_buffer` in
xterm.c is not part of the sources).  Per the spec it publishes the back
buffer and clears the needs-flip flag; on a single-buffered frame it is
a no-op that still clears the flag.  It changes no handles. -/
def buffer_flip (f : XOutput) : XOutput :=
  { f with need_buffer_flip := false }

/- ## Focus state machine

xterm.h declares the per-frame `focus_state` field and the values
`FOCUS_NONE = 0`, `FOCUS_IMPLICIT = 1`, `FOCUS_EXPLICIT = 2`, with the
comment "EXPLICIT means we received a FocusIn for the frame ...
IMPLICIT means we received an EnterNotify ...  FocusOut and LeaveNotify
clears EXPLICIT/IMPLICIT". -/

inductive FocusState where
  | FOCUS_NONE
  | FOCUS_IMPLICIT
  | FOCUS_EXPLICIT
deriving Repr, DecidableEq, Fintype

inductive FocusEvent where
  | EnterNotify
  | LeaveNotify
  | FocusIn
  | FocusOut
deriving Repr, DecidableEq, Fintype

/-- Modelled from the spec: the transition code (`x_focus_changed` /
`x_detect_focus_change` in xterm.c) is not part of the sources; the
header only declares `focus_state` and its values.  Per the spec: a
focus-in event sets EXPLICIT; a focus-out clears to NONE; a
pointer-enter sets IMPLICIT only if the current state is NONE (an
explicit focus is not demoted by a hover); a pointer-leave clears
IMPLICIT back to NONE but does not clear EXPLICIT. -/
def focus_transition (s : FocusState) (e : FocusEvent) : FocusState :=
  match e with
  | FocusEvent.EnterNotify =>
      if s = FocusState.FOCUS_NONE then FocusState.FOCUS_IMPLICIT else s
  | FocusEvent.LeaveNotify =>
      if s = FocusState.FOCUS_IMPLICIT then FocusState.FOCUS_NONE else s
  | FocusEvent.FocusIn => FocusState.FOCUS_EXPLICIT
  | FocusEvent.FocusOut => FocusState.FOCUS_NONE

/-- Run a sequence of focus events from a starting state. -/
def focus_run (s : FocusState) : List FocusEvent → FocusState
  | [] => s
  | e :: es => focus_run (focus_transition s e) es

/- ## Bitmap table

`struct x_bitmap_record` (xterm.h lines 127-142): pixmap handle,
optional mask, source file, reference count, dimensions; the structure
comment says "If REFCOUNT is 0 then this record is free to be reused."
`x_display_info` holds the growable `bitmaps` array (lines 264-271).
The operations (`x_reference_bitmap`, `x_destroy_bitmap`,
`x_allocate_bitmap_record` in image.c) are not part of the sources. -/

structure BitmapRecord where
  pixmap : Nat
  refcount : Nat
  file : Option String
deriving Repr, DecidableEq

/-- The bitmap table: the `bitmaps` array of `x_display_info`. -/
structure BitmapTable where
  bitmaps : List BitmapRecord
deriving Repr, DecidableEq

/-- Reference count of the record at slot `i` (0 when out of range). -/
def bitmap_refcount (t : BitmapTable) (i : Nat) : Nat :=
  ((t.bitmaps[i]?).map BitmapRecord.refcount).getD 0

/-- Modelled from the spec: `x_reference_bitmap` (image.c, not in the
sources) — a sharing request increments the record's reference count
by one. -/
def x_reference_bitmap (t : BitmapTable) (i : Nat) : BitmapTable :=
  { bitmaps := t.bitmaps.modify
      (fun r => { r with refcount := r.refcount + 1 }) i }

/-- Modelled from the spec: `x_destroy_bitmap` (image.c, not in the
sources) — release decrements the reference count by one; when the
count reaches zero the underlying server pixmap is destroyed and the
slot becomes free.  Returns the updated table paired with `true` when
the server resource was destroyed by this release. -/
def x_destroy_bitmap (t : BitmapTable) (i : Nat) : BitmapTable × Bool :=
  match t.bitmaps[i]? with
  | none => (t, false)
  | some r =>
      let t2 : BitmapTable :=
        { bitmaps := t.bitmaps.modify
            (fun r => { r with refcount := r.refcount - 1 }) i }
      (t2, r.refcount == 1)

/-- First slot whose reference count is zero, if any. -/
def bitmap_free_slot : List BitmapRecord → Option Nat
  | [] => none
  | r :: rs =>
      if r.refcount = 0 then some 0
      else (bitmap_free_slot rs).map Nat.succ

/-- Modelled from the spec: `x_allocate_bitmap_record` (image.c, not in
the sources) — a new allocation reuses the first slot with reference
count zero before growing the array; the chosen record starts with
reference count one.  Returns the table and the slot index used. -/
def x_allocate_bitmap_record (t : BitmapTable) (px : Nat)
    (file : Option String) : BitmapTable × Nat :=
  match bitmap_free_slot t.bitmaps with
  | some i =>
      ({ bitmaps := t.bitmaps.modify
           (fun _ => { pixmap := px, refcount := 1, file := file }) i }, i)
  | none =>
      ({ bitmaps := t.bitmaps ++ [{ pixmap := px, refcount := 1, file := file }] },
       t.bitmaps.length)

/- ## Error traps

xterm.h declares `x_catch_errors`, `x_catch_errors_with_handler`,
`x_uncatch_errors`, `x_had_errors_p` (lines 1073-1081); their bodies
(xterm.c) are not part of the sources. -/

/-- Modelled from the spec: the per-connection trap stack.  Entering a
trap (`x_catch_errors_with_handler`) pushes the handler, shadowing the
previous one.  Handlers are identified abstractly by `Nat`. -/
def x_catch_errors (stack : List Nat) (handler : Nat) : List Nat :=
  handler :: stack

/-- Modelled from the spec: `x_uncatch_errors` (xterm.c, not in the
sources) — leaving a trap pops the stack, restoring the handler that
was in effect when the trap was entered. -/
def x_uncatch_errors (stack : List Nat) : List Nat :=
  match stack with
  | [] => []
  | _ :: rest => rest

/-- Modelled from the spec: the handler an asynchronous error is
attributed to is the innermost (most recently entered, not yet ended)
trap's handler. -/
def current_error_handler (stack : List Nat) : Option Nat :=
  stack.head?

/- ## Atom cache

xterm.h stores the per-connection atom handles (`Xatom_wm_protocols`
and the rest, lines 297-320); the interning code that populates them
(xterm.c) is not part of the sources. -/

/-- Modelled from the spec: the per-connection atom cache, mapping
names to resolved handles, append-only. -/
structure AtomCache where
  entries : List (String × Nat)
deriving Repr, DecidableEq

/-- Look a name up in the cache (first match wins). -/
def atom_lookup (es : List (String × Nat)) (name : String) : Option Nat :=
  match es with
  | [] => none
  | (n, a) :: rest => if n = name then some a else atom_lookup rest name

/-- Modelled from the spec: `intern(name)` (the interning code in
xterm.c is not part of the sources).  A first lookup performs one
server round trip (`server` abstracts the name-to-atom resolution) and
appends the result to the cache; subsequent lookups are served locally.
Returns the cache, the handle, and the number of round trips taken. -/
def intern (server : String → Nat) (c : AtomCache) (name : String) :
    AtomCache × Nat × Nat :=
  match atom_lookup c.entries name with
  | some a => (c, a, 0)
  | none =>
      let a := server name
      ({ entries := c.entries ++ [(name, a)] }, a, 1)

/-- Modelled from the spec: releasing an allocated color (the
`x_copy_color` / free pairing whose bodies live in xterm.c, not in the
sources).  On a mutable colormap the pixel is removed from the set of
allocated cells; on an immutable color model release is a no-op, since
no reference counting of color cells is performed there. -/
def x_free_pixel (c : VisualClass) (allocated : List Nat) (pixel : Nat) :
    List Nat :=
  if x_mutable_colormap c then allocated.erase pixel else allocated

/- ## Theorems -/

/-- C1: pointer-enter sets IMPLICIT only from NONE and never demotes
EXPLICIT; pointer-leave clears IMPLICIT back to NONE but never clears
EXPLICIT; focus-in sets EXPLICIT from any state; and only a FocusOut
event takes EXPLICIT to NONE. -/
theorem focus_state_machine_discipline :
    (focus_transition FocusState.FOCUS_NONE FocusEvent.EnterNotify
        = FocusState.FOCUS_IMPLICIT)
    ∧ (∀ s, focus_transition s FocusEvent.EnterNotify = FocusState.FOCUS_IMPLICIT
        ↔ (s = FocusState.FOCUS_NONE ∨ s = FocusState.FOCUS_IMPLICIT))
    ∧ (focus_transition FocusState.FOCUS_EXPLICIT FocusEvent.EnterNotify
        = FocusState.FOCUS_EXPLICIT)
    ∧ (focus_transition FocusState.FOCUS_IMPLICIT FocusEvent.LeaveNotify
        = FocusState.FOCUS_NONE)
    ∧ (focus_transition FocusState.FOCUS_EXPLICIT FocusEvent.LeaveNotify
        = FocusState.FOCUS_EXPLICIT)
    ∧ (∀ s, focus_transition s FocusEvent.FocusIn = FocusState.FOCUS_EXPLICIT)
    ∧ (∀ e, focus_transition FocusState.FOCUS_EXPLICIT e = FocusState.FOCUS_NONE
        ↔ e = FocusEvent.FocusOut) := by
  decide

/-- C3: with red_bits=8/red_offset=16, green_bits=8/green_offset=8,
blue_bits=8/blue_offset=0, packing (r,g,b) = (0xFFFF,0,0) with
`x_make_truecolor_pixel` yields exactly the pixel 0x00FF0000. -/
theorem truecolor_pack_red_ffff :
    x_make_truecolor_pixel
      { red_bits := 8, green_bits := 8, blue_bits := 8,
        red_offset := 16, green_offset := 8, blue_offset := 0 }
      0xFFFF 0x0000 0x0000 = 0x00FF0000 := by
  decide

/-- C4: obtaining the drawable for writing through `FRAME_X_DRAWABLE`
always marks the frame dirty (the resulting state is exactly the
mark-dirty of the input, so `need_buffer_flip` is true afterwards) and
returns the frame's current `draw_desc` handle. -/
theorem FRAME_X_DRAWABLE_marks_dirty (f : XOutput) :
    (FRAME_X_DRAWABLE f).1.need_buffer_flip = true
    ∧ (FRAME_X_DRAWABLE f).2 = f.draw_desc
    ∧ (FRAME_X_DRAWABLE f).1 = x_mark_frame_dirty f := by
  exact ⟨rfl, rfl, rfl⟩

/-- C5: a frame is double-buffered exactly when its drawable handle
differs from its window handle; a flip changes neither handle, so a
single-buffered frame's drawable still equals its window after any
flip. -/
theorem double_buffered_iff_handles_differ (f : XOutput) :
    (FRAME_X_DOUBLE_BUFFERED_P f = true ↔ f.window_desc ≠ f.draw_desc)
    ∧ (FRAME_X_DOUBLE_BUFFERED_P f = false ↔ f.window_desc = f.draw_desc)
    ∧ (buffer_flip f).draw_desc = f.draw_desc
    ∧ (buffer_flip f).window_desc = f.window_desc
    ∧ FRAME_X_DOUBLE_BUFFERED_P (buffer_flip f) = FRAME_X_DOUBLE_BUFFERED_P f := by
  refine ⟨?_, ?_, rfl, rfl, rfl⟩
  · simp [FRAME_X_DOUBLE_BUFFERED_P, FRAME_X_RAW_DRAWABLE]
  · simp [FRAME_X_DOUBLE_BUFFERED_P, FRAME_X_RAW_DRAWABLE]

/-- C6: the draggable top range of a vertical scroll bar of outside
height H equals H minus the top border, the bottom border and the
minimum handle length; for H = 100 this is 100 − 2 − 2 − 5 = 91. -/
theorem vertical_top_range_formula :
    (∀ H : Int, VERTICAL_SCROLL_BAR_TOP_RANGE H =
        H - VERTICAL_SCROLL_BAR_TOP_BORDER - VERTICAL_SCROLL_BAR_BOTTOM_BORDER
          - VERTICAL_SCROLL_BAR_MIN_HANDLE)
    ∧ VERTICAL_SCROLL_BAR_TOP_RANGE 100 = 91 := by
  exact ⟨fun H => rfl, rfl⟩

/-- C8: error traps nest with stack discipline: ending a trap restores
the handler in effect when it was entered, and after entering A then B
then ending B, the current (attributing) handler is A's. -/
theorem error_trap_nesting (stack : List Nat) (a b : Nat) :
    x_uncatch_errors (x_catch_errors stack a) = stack
    ∧ current_error_handler
        (x_uncatch_errors (x_catch_errors (x_catch_errors stack a) b)) = some a := by
  exact ⟨rfl, rfl⟩

/-- C10: the horizontal scroll bar's inside width subtracts the left
border constant twice (never using the right border constant), so the
left range is W − 2·LEFT_BORDER − MIN_HANDLE, 91 at W = 100; this
coincides with the left-plus-right formula only because the two border
constants are equal. -/
theorem horizontal_left_range_formula :
    (∀ W : Int, HORIZONTAL_SCROLL_BAR_INSIDE_WIDTH W =
        W - 2 * HORIZONTAL_SCROLL_BAR_LEFT_BORDER)
    ∧ (∀ W : Int, HORIZONTAL_SCROLL_BAR_LEFT_RANGE W =
        W - 2 * HORIZONTAL_SCROLL_BAR_LEFT_BORDER
          - HORIZONTAL_SCROLL_BAR_MIN_HANDLE)
    ∧ HORIZONTAL_SCROLL_BAR_LEFT_RANGE 100 = 91
    ∧ HORIZONTAL_SCROLL_BAR_LEFT_BORDER = HORIZONTAL_SCROLL_BAR_RIGHT_BORDER
    ∧ (∀ W : Int, HORIZONTAL_SCROLL_BAR_INSIDE_WIDTH W =
        W - HORIZONTAL_SCROLL_BAR_LEFT_BORDER
          - HORIZONTAL_SCROLL_BAR_RIGHT_BORDER) := by
  refine ⟨fun W => ?_, fun W => ?_, rfl, rfl, fun W => rfl⟩
  · simp [HORIZONTAL_SCROLL_BAR_INSIDE_WIDTH, HORIZONTAL_SCROLL_BAR_LEFT_BORDER]
    ring
  · simp [HORIZONTAL_SCROLL_BAR_LEFT_RANGE, HORIZONTAL_SCROLL_BAR_INSIDE_WIDTH,
      HORIZONTAL_SCROLL_BAR_LEFT_BORDER, HORIZONTAL_SCROLL_BAR_MIN_HANDLE]
    ring

/-- Helper: the slot returned by the free-slot search has reference
count zero. -/
theorem bitmap_free_slot_refcount :
    ∀ (l : List BitmapRecord) (j : Nat), bitmap_free_slot l = some j →
      ((l[j]?).map BitmapRecord.refcount).getD 0 = 0
  | [], j, h => by simp [bitmap_free_slot] at h
  | r :: rs, j, h => by
      simp only [bitmap_free_slot] at h
      by_cases hr : r.refcount = 0
      · rw [if_pos hr] at h
        cases h
        simpa using hr
      · rw [if_neg hr] at h
        obtain ⟨j', hj', rfl⟩ := Option.map_eq_some'.mp h
        simpa using bitmap_free_slot_refcount rs j' hj'

/-- C2: sharing increments a record's reference count by one; release
decrements it by one and reports destruction of the server pixmap
exactly when the count reaches zero; a new allocation reuses the free
(count-zero) slot, and the free-slot search only ever designates slots
of count zero. -/
theorem bitmap_refcount_discipline (t : BitmapTable) (i px : Nat)
    (src : Option String) (h : i < t.bitmaps.length) :
    bitmap_refcount (x_reference_bitmap t i) i = bitmap_refcount t i + 1
    ∧ bitmap_refcount (x_destroy_bitmap t i).1 i = bitmap_refcount t i - 1
    ∧ ((x_destroy_bitmap t i).2 = true ↔ bitmap_refcount t i = 1)
    ∧ (bitmap_free_slot t.bitmaps = some i →
        (x_allocate_bitmap_record t px src).2 = i
        ∧ bitmap_refcount (x_allocate_bitmap_record t px src).1 i = 1
        ∧ (x_allocate_bitmap_record t px src).1.bitmaps.length
            = t.bitmaps.length)
    ∧ (∀ j, bitmap_free_slot t.bitmaps = some j → bitmap_refcount t j = 0) := by
  have hg : t.bitmaps[i]? = some t.bitmaps[i] := List.getElem?_eq_getElem h
  refine ⟨?_, ?_, ?_, ?_, ?_⟩
  · simp [bitmap_refcount, x_reference_bitmap, hg]
  · simp [bitmap_refcount, x_destroy_bitmap, hg]
  · simp [x_destroy_bitmap, bitmap_refcount, hg]
  · intro hfree
    refine ⟨?_, ?_, ?_⟩
    · simp [x_allocate_bitmap_record, hfree]
    · simp [bitmap_refcount, x_allocate_bitmap_record, hfree, hg]
    · simp [x_allocate_bitmap_record, hfree]
  · intro j hj
    exact bitmap_free_slot_refcount t.bitmaps j hj

/-- Witness for C2 at the concrete one-record table whose single record
has reference count zero: sharing takes the count from 0 to 1, and a
fresh allocation reuses slot 0. -/
theorem bitmap_refcount_discipline_witness :
    bitmap_refcount
        (x_reference_bitmap
          { bitmaps := [{ pixmap := 1, refcount := 0, file := none }] } 0) 0
      = bitmap_refcount
          { bitmaps := [{ pixmap := 1, refcount := 0, file := none }] } 0 + 1
    ∧ (x_allocate_bitmap_record
        { bitmaps := [{ pixmap := 1, refcount := 0, file := none }] } 2 none).2
      = 0 := by
  have H := bitmap_refcount_discipline
    { bitmaps := [{ pixmap := 1, refcount := 0, file := none }] } 0 2 none
    (by decide)
  exact ⟨H.1, (H.2.2.2.1 (by decide)).1⟩

/-- C7: a colormap is mutable exactly when the visual class is none of
StaticColor, StaticGray and TrueColor, and on an immutable color model
releasing a pixel is a no-op. -/
theorem mutable_colormap_classification (c : VisualClass)
    (allocated : List Nat) (px : Nat) :
    (x_mutable_colormap c = true ↔
      (c ≠ VisualClass.StaticColor ∧ c ≠ VisualClass.StaticGray
        ∧ c ≠ VisualClass.TrueColor))
    ∧ (x_mutable_colormap c = false → x_free_pixel c allocated px = allocated)
    ∧ (x_mutable_colormap c = true →
        x_free_pixel c allocated px = allocated.erase px) := by
  refine ⟨?_, ?_, ?_⟩
  · cases c <;> simp [x_mutable_colormap]
  · intro hc; simp [x_free_pixel, hc]
  · intro hc; simp [x_free_pixel, hc]

/-- Witness for C7 at the TrueColor visual: the colormap is immutable
and releasing pixel 7 from the allocated list [7] leaves it untouched. -/
theorem mutable_colormap_classification_witness :
    x_mutable_colormap VisualClass.TrueColor = false
    ∧ x_free_pixel VisualClass.TrueColor [7] 7 = [7] :=
  ⟨by decide,
   (mutable_colormap_classification VisualClass.TrueColor [7] 7).2.1 (by decide)⟩

/-- Helper: a name that missed the cache is found after its entry is
appended. -/
theorem atom_lookup_append_self (es : List (String × Nat)) (name : String)
    (a : Nat) (h : atom_lookup es name = none) :
    atom_lookup (es ++ [(name, a)]) name = some a := by
  induction es with
  | nil => simp [atom_lookup]
  | cons p rest ih =>
      obtain ⟨n, b⟩ := p
      simp only [atom_lookup, List.cons_append] at h ⊢
      by_cases hn : n = name
      · rw [if_pos hn] at h; exact absurd h (by simp)
      · rw [if_neg hn] at h ⊢
        exact ih h

/-- C9: interning is idempotent per connection: a second `intern` of the
same name returns the same handle, performs zero round trips, and leaves
the cache unchanged. -/
theorem intern_idempotent (server : String → Nat) (c : AtomCache)
    (name : String) :
    (intern server (intern server c name).1 name).2.1
        = (intern server c name).2.1
    ∧ (intern server (intern server c name).1 name).2.2 = 0
    ∧ (intern server (intern server c name).1 name).1
        = (intern server c name).1 := by
  cases h : atom_lookup c.entries name with
  | some a => simp [intern, h]
  | none =>
      have h2 := atom_lookup_append_self c.entries name (server name) h
      simp [intern, h, h2]
